import Mathlib

/-!
Verification of the per-user real-time session bridge
(`websocket-server/src/userSessionManager.ts`) of the
openai-realtime-twilio-demo repository.

The TypeScript source is shallowly embedded: the two module-level `Map`s
become association lists inside an explicit `ManagerState`; every event
handler becomes a pure function from state to state paired with the list
of observable effects it performs (messages sent over a link, `ws.close()`
calls, call-history collaborator invocations).  WebSocket handles are
modelled by their ready state only; `jsonSend` emits a message exactly
when the target connection handle is present and open, mirroring the
source's `readyState === OPEN` guard.  JavaScript truthiness tests that
the source performs on optional strings and numbers (`!session.callSid`,
`!session.responseStartTimestamp`, `x || 0`, …) are modelled by explicit
`jsFalsy…` helpers, so that `0` and `""` are falsy exactly as in the
source.
-/

namespace SessionBridge

/-- WebSocket `readyState` values (`ws` library). -/
inductive WsState where
  | connecting
  | opened
  | closing
  | closed
deriving DecidableEq, Repr

/-- Models `UserSession.callType` in `types.ts`: `'inbound' | 'outbound'`. -/
inductive CallType where
  | inbound
  | outbound
deriving DecidableEq, Repr

/-- Models `UserSession.outboundCallStatus` in `types.ts`. -/
inductive OutboundCallStatus where
  | initiating
  | ringing
  | connected
  | disconnected
deriving DecidableEq, Repr

/-- Which connection a `ws.close()` call targets. -/
inductive ConnTag where
  | anonymousCall
  | twilio
  | model
  | frontend
deriving DecidableEq, Repr

/-- Parsed Twilio messages consumed by `handleTwilioMessage` (the shapes
read by the source: `msg.start.callSid`, `msg.start.streamSid`,
`msg.start.from`, `msg.media.timestamp`, `msg.media.payload`). -/
inductive TwilioMsg where
  | start (callSid : Option String) (streamSid : String) (fromNum : Option String)
  | media (timestamp : Int) (payload : String)
  | close
  | stop
  | unknownEvent (event : String)
deriving DecidableEq, Repr

/-- Events the modelled handlers send on the model (OpenAI) link. -/
inductive ModelEvent where
  | inputAudioBufferAppend (audio : String)
  | conversationItemTruncate (itemId : String) (contentIndex : Int) (audioEndMs : Int)
  | inputAudioBufferClear
  | systemNoticeCreate (text : String)
  | functionOutputCreate (callId : Option String) (output : String)
  | responseCreate
deriving DecidableEq, Repr

/-- Observable effects of one handler invocation, in program order. -/
inductive Effect where
  | sendModel (e : ModelEvent)
  | closeConn (which : ConnTag)
  | openModelConn
  | startTracking (callSid userId phone dir : String)
  | updateStatus (callSid status : String)
  | convEvent (callSid eventType speaker content : String)
  | endTracking (callSid : String)
deriving DecidableEq, Repr

/-- Models `UserSession` of `types.ts`; optional fields are `Option`s, websocket
handles are modelled by their ready state. -/
structure UserSession where
  userId : String
  sessionId : Option String
  twilioConn : Option WsState
  frontendConn : Option WsState
  modelConn : Option WsState
  streamSid : Option String
  saved_config : Option String
  lastAssistantItem : Option String
  responseStartTimestamp : Option Int
  latestMediaTimestamp : Option Int
  openAIApiKey : Option String
  callType : Option CallType
  callSid : Option String
  outboundCallStatus : Option OutboundCallStatus
deriving DecidableEq, Repr

/-- The module-level mutable state of `userSessionManager.ts`:
`userSessions : Map<string, UserSession>` and
`callSidToUserId : Map<string, string>`. -/
structure ManagerState where
  userSessions : List (String × UserSession)
  callSidToUserId : List (String × String)
deriving DecidableEq, Repr

/-- Models `Map.prototype.get`. -/
def mapGet {α : Type} (m : List (String × α)) (k : String) : Option α :=
  match m with
  | [] => none
  | (k2, v) :: rest => if k2 = k then some v else mapGet rest k

/-- Models `Map.prototype.set` (overwrites an existing binding, else appends). -/
def mapSet {α : Type} (m : List (String × α)) (k : String) (v : α) :
    List (String × α) :=
  match m with
  | [] => [(k, v)]
  | (k2, v2) :: rest =>
      if k2 = k then (k, v) :: rest else (k2, v2) :: mapSet rest k v

theorem mapGet_mapSet_self {α : Type} (m : List (String × α)) (k : String) (v : α) :
    mapGet (mapSet m k v) k = some v := by
  induction m with
  | nil => simp [mapGet, mapSet]
  | cons hd tl ih =>
      obtain ⟨k2, v2⟩ := hd
      by_cases h : k2 = k <;> simp [mapGet, mapSet, h, ih]

theorem mapGet_mapSet_ne {α : Type} (m : List (String × α)) (k k' : String) (v : α)
    (h : k ≠ k') : mapGet (mapSet m k v) k' = mapGet m k' := by
  induction m with
  | nil => simp [mapGet, mapSet, h]
  | cons hd tl ih =>
      obtain ⟨k2, v2⟩ := hd
      by_cases h2 : k2 = k
      · subst h2; simp [mapGet, mapSet, h]
      · simp [mapGet, mapSet, h2, ih]

theorem mapGet_mapSet_isSome {α : Type} (m : List (String × α)) (k u : String) (v : α)
    (h : (mapGet m u).isSome) : (mapGet (mapSet m k v) u).isSome := by
  by_cases hk : k = u
  · subst hk; simp [mapGet_mapSet_self]
  · rwa [mapGet_mapSet_ne m k u v hk]

/-- JavaScript truthiness on an optional string: `undefined` and `""` are
falsy. -/
def jsStrFalsy : Option String → Bool
  | none => true
  | some s => s = ""

/-- JavaScript truthiness on an optional number: `undefined` and `0` are
falsy. -/
def jsNumFalsy : Option Int → Bool
  | none => true
  | some v => v = 0

/-- Models `x || d` on an optional number (`undefined` and `0` fall back to `d`). -/
def jsNumOr (x : Option Int) (d : Int) : Int :=
  match x with
  | none => d
  | some v => if v = 0 then d else v

/-- Models `x || d` on an optional string (`undefined` and `""` fall back to `d`). -/
def jsStrOr (x : Option String) (d : String) : String :=
  match x with
  | none => d
  | some s => if s = "" then d else s

/-- Models `isOpen` of the source: handle present and `readyState === OPEN`. -/
def isOpen (c : Option WsState) : Bool :=
  c = some WsState.opened

/-- Models `jsonSend`: emit the message only when the connection is open. -/
def jsonSend (c : Option WsState) (e : Effect) : List Effect :=
  if isOpen c then [e] else []

/-- Models `cleanupConnection`: `ws.close()` when the handle is present and
`OPEN` or `CONNECTING`. -/
def cleanupConnection (c : Option WsState) (tag : ConnTag) : List Effect :=
  if c = some WsState.opened ∨ c = some WsState.connecting then
    [Effect.closeConn tag]
  else []

/-- The session object created by `getUserSession` for a fresh user id:
`{ userId }` with every other field `undefined`. -/
def freshSession (userId : String) : UserSession :=
  { userId := userId
    sessionId := none
    twilioConn := none
    frontendConn := none
    modelConn := none
    streamSid := none
    saved_config := none
    lastAssistantItem := none
    responseStartTimestamp := none
    latestMediaTimestamp := none
    openAIApiKey := none
    callType := none
    callSid := none
    outboundCallStatus := none }

/-- The state at process start: both module-level maps empty. -/
def emptyState : ManagerState :=
  { userSessions := [], callSidToUserId := [] }

/-- Models `getUserSession`: returns the existing session, creating (and
registering) an empty one when the user id is unknown. -/
def getUserSession (userId : String) (st : ManagerState) :
    UserSession × ManagerState :=
  match mapGet st.userSessions userId with
  | some s => (s, st)
  | none =>
      let s := freshSession userId
      (s, { st with userSessions := mapSet st.userSessions userId s })

/-- Write a (mutated) session object back into the registry; in the source
this is implicit, the map holds the mutable object. -/
def setSession (st : ManagerState) (userId : String) (s : UserSession) :
    ManagerState :=
  { st with userSessions := mapSet st.userSessions userId s }

/-- Models `getUserIdByCallSid`: read-only lookup in `callSidToUserId` (the
source calls `Map.get` and never deletes entries). -/
def getUserIdByCallSid (st : ManagerState) (callSid : String) : Option String :=
  mapGet st.callSidToUserId callSid

/-- Models `associateOutboundCall`: mark the user's session as an initiating
outbound call and register the Call SID → user id mapping
(`Map.set`, so re-registering overwrites). -/
def associateOutboundCall (userId : String) (callSid : String)
    (st : ManagerState) : ManagerState :=
  let (s, st) := getUserSession userId st
  let s := { s with
    callType := some CallType.outbound
    outboundCallStatus := some OutboundCallStatus.initiating
    callSid := some callSid }
  let st := setSession st userId s
  { st with callSidToUserId := mapSet st.callSidToUserId callSid userId }

/-- Models `associateOutboundCallWithPhoneNumber`: association plus the
fire-and-forget `startCallTracking` collaborator call. -/
def associateOutboundCallWithPhoneNumber (userId callSid phoneNumber : String)
    (st : ManagerState) : ManagerState × List Effect :=
  (associateOutboundCall userId callSid st,
   [Effect.startTracking callSid userId phoneNumber "outbound"])

/-- Models `handleFrontendConnection`: the token is resolved to a user id by the
external verifier (`extractUserIdFromToken`, passed here as `verify`); an
unresolvable token closes the socket with no session side effects,
otherwise the new socket replaces any prior frontend connection.  The
`Bool` records whether a message handler was attached to the socket. -/
def handleFrontendConnection (verify : String → Option String) (token : String)
    (st : ManagerState) : ManagerState × List Effect × Bool :=
  match verify token with
  | none => (st, [Effect.closeConn ConnTag.frontend], false)
  | some userId =>
      if userId = "" then (st, [Effect.closeConn ConnTag.frontend], false)
      else
        let (s, st) := getUserSession userId st
        let effs := cleanupConnection s.frontendConn ConnTag.frontend
        (setSession st userId { s with frontendConn := some WsState.opened },
         effs, true)

/-- The `ws.on("close", …)` handler registered by
`handleFrontendConnection`: clears the frontend link.  The source closure
mutates the captured session object; this is visible exactly when that
object is still the registry entry, so the model re-reads by user id and
is a no-op for an unknown id. -/
def frontendSocketCloseHandler (userId : String) (st : ManagerState) :
    ManagerState × List Effect :=
  match mapGet st.userSessions userId with
  | none => (st, [])
  | some s =>
      (setSession st userId { s with frontendConn := none },
       cleanupConnection s.frontendConn ConnTag.frontend)

/-- The system notice injected after a truncation. -/
def interruptionNotice : String :=
  "You were just interrupted by the user while speaking. The user is now talking. Listen to what they're saying and respond appropriately."

/-- Models `handleTruncation`: the delayed barge-in action.  Note the JavaScript
falsy guards: a `lastAssistantItem` of `""` or a `responseStartTimestamp`
of `0` take the early return exactly like an absent value. -/
def handleTruncation (userId : String) (st : ManagerState) :
    ManagerState × List Effect :=
  let (s, st) := getUserSession userId st
  if jsStrFalsy s.lastAssistantItem then (st, [])
  else if jsNumFalsy s.responseStartTimestamp then (st, [])
  else
    let elapsedMs :=
      jsNumOr s.latestMediaTimestamp 0 - s.responseStartTimestamp.getD 0
    let itemId := s.lastAssistantItem.getD ""
    let sends :=
      jsonSend s.modelConn
        (Effect.sendModel (ModelEvent.conversationItemTruncate itemId 0 elapsedMs)) ++
      jsonSend s.modelConn
        (Effect.sendModel ModelEvent.inputAudioBufferClear) ++
      jsonSend s.modelConn
        (Effect.sendModel (ModelEvent.systemNoticeCreate interruptionNotice))
    let track :=
      if jsStrFalsy s.callSid then []
      else [Effect.convEvent (s.callSid.getD "") "system_event" "system"
              "Assistant was interrupted by user"]
    let s := { s with lastAssistantItem := none, responseStartTimestamp := none }
    (setSession st userId s, sends ++ track)

/-- Models `tryConnectModel`: opens the model link only when the telephony link,
stream SID and API key are all present (JS-truthy) and the model link is
not already open; a fresh `WebSocket` starts in the `CONNECTING` state. -/
def tryConnectModel (userId : String) (st : ManagerState) :
    ManagerState × List Effect :=
  let (s, st) := getUserSession userId st
  if s.twilioConn = none ∨ jsStrFalsy s.streamSid ∨ jsStrFalsy s.openAIApiKey then
    (st, [])
  else if isOpen s.modelConn then (st, [])
  else
    (setSession st userId { s with modelConn := some WsState.connecting },
     [Effect.openModelConn])

/-- Models `if (session.callSid) endCallTracking(session.callSid)`. -/
def endTrackingEffect (callSid : Option String) : List Effect :=
  if jsStrFalsy callSid then [] else [Effect.endTracking (callSid.getD "")]

/-- The `switch (msg.event)` body of `handleTwilioMessage` (lines
196–269), run once a user id is known. -/
def twilioSwitch (userId : String) (msg : TwilioMsg) (st : ManagerState) :
    ManagerState × List Effect :=
  let (s, st) := getUserSession userId st
  match msg with
  | TwilioMsg.start callSid streamSid fromNum =>
      let s := { s with
        streamSid := some streamSid
        latestMediaTimestamp := some 0
        lastAssistantItem := none
        responseStartTimestamp := none }
      let (s, trackEffs) :=
        if s.callType = none then
          let s := { s with callType := some CallType.inbound }
          if jsStrFalsy callSid then (s, [])
          else
            ({ s with callSid := some (callSid.getD "") },
             [Effect.startTracking (callSid.getD "") userId
                (jsStrOr fromNum "unknown") "inbound"])
        else (s, [])
      let st := setSession st userId s
      let (st, connectEffs) := tryConnectModel userId st
      (st, trackEffs ++ connectEffs)
  | TwilioMsg.media timestamp payload =>
      let s := { s with latestMediaTimestamp := some timestamp }
      let st := setSession st userId s
      (st,
       jsonSend s.modelConn
         (Effect.sendModel (ModelEvent.inputAudioBufferAppend payload)))
  | TwilioMsg.close =>
      let effs :=
        endTrackingEffect s.callSid ++
        cleanupConnection s.twilioConn ConnTag.twilio ++
        cleanupConnection s.modelConn ConnTag.model
      let s := { s with
        twilioConn := none
        modelConn := none
        outboundCallStatus := some OutboundCallStatus.disconnected }
      (setSession st userId s, effs)
  | TwilioMsg.stop =>
      (st, endTrackingEffect s.callSid)
  | TwilioMsg.unknownEvent _ => (st, [])

/-- The identification block of `handleTwilioMessage` (lines 132–188):
on an anonymous `start`, resolve the Call SID; close the socket when
unresolvable (or resolving to a JS-falsy user id), otherwise attach the
telephony link, mark outbound calls connected, and fall through to the
message switch. -/
def twilioIdentify (openAIApiKey : String) (callSid : Option String)
    (streamSid : String) (fromNum : Option String) (st : ManagerState) :
    ManagerState × List Effect :=
  match callSid.bind (getUserIdByCallSid st) with
  | none => (st, [Effect.closeConn ConnTag.anonymousCall])
  | some foundUserId =>
      if foundUserId = "" then
        (st, [Effect.closeConn ConnTag.anonymousCall])
      else
        let (s, st) := getUserSession foundUserId st
        let cleanupEffs := cleanupConnection s.twilioConn ConnTag.twilio
        let s := { s with
          twilioConn := some WsState.opened
          openAIApiKey := some openAIApiKey }
        let (s, statusEffs) :=
          if s.callType = some CallType.outbound then
            ({ s with outboundCallStatus := some OutboundCallStatus.connected },
             [Effect.updateStatus (callSid.getD "") "connected"])
          else (s, [])
        let st := setSession st foundUserId s
        let (st, switchEffs) :=
          twilioSwitch foundUserId
            (TwilioMsg.start callSid streamSid fromNum) st
        (st, cleanupEffs ++ statusEffs ++ switchEffs)

/-- Models `handleTwilioMessage`: `userIdIn = none` models the anonymous handler
installed by `handleCallConnection`; `some uid` models the re-attached
handler after identification.  A message that fails to parse is `none`
and is dropped.  On an anonymous `start`, identification runs
(`twilioIdentify`); any other message without a (JS-truthy) user id is
dropped. -/
def handleTwilioMessage (userIdIn : Option String) (openAIApiKey : String)
    (raw : Option TwilioMsg) (st : ManagerState) : ManagerState × List Effect :=
  match raw with
  | none => (st, [])
  | some msg =>
      if jsStrFalsy userIdIn then
        match msg with
        | TwilioMsg.start callSid streamSid fromNum =>
            twilioIdentify openAIApiKey callSid streamSid fromNum st
        | _ => (st, [])
      else
        match userIdIn with
        | none => (st, [])
        | some uid => twilioSwitch uid msg st

/-- The `ws.on("close", …)` handler registered at identification time
(lines 166–187): it fires when the telephony socket actually closes,
ends call tracking, closes the model link and clears the streaming
fields. -/
def twilioSocketCloseHandler (userId : String) (st : ManagerState) :
    ManagerState × List Effect :=
  let (s, st) := getUserSession userId st
  let effs :=
    endTrackingEffect s.callSid ++
    cleanupConnection s.modelConn ConnTag.model ++
    cleanupConnection s.twilioConn ConnTag.twilio
  let s := { s with
    twilioConn := none
    modelConn := none
    streamSid := none
    lastAssistantItem := none
    responseStartTimestamp := none
    latestMediaTimestamp := none }
  let s :=
    if s.callType = some CallType.outbound then
      { s with outboundCallStatus := some OutboundCallStatus.disconnected }
    else s
  (setSession st userId s, effs)

/-- Full processing of a telephony `close` signal on an identified
connection: the `close` case of the switch runs, and — because that case
calls `ws.close()` on the (open) telephony socket — the socket-close
handler registered at identification time then fires as well. -/
def processCloseSignal (userId : String) (st : ManagerState) :
    ManagerState × List Effect :=
  let pre := (getUserSession userId st).1
  let (st1, e1) := handleTwilioMessage (some userId) "" (some TwilioMsg.close) st
  if pre.twilioConn = some WsState.opened ∨ pre.twilioConn = some WsState.connecting then
    let (st2, e2) := twilioSocketCloseHandler userId st1
    (st2, e1 ++ e2)
  else (st1, e1)

/-- A registered tool: name (from `schema.name`) and handler.  The handler
returns `Except.error msg` when the underlying promise rejects with an
error whose `message` is `msg`. -/
structure FunctionHandler where
  name : String
  handler : String → Except String String

/-- Models `JSON.stringify({ error: "Invalid JSON arguments for function call." })`. -/
def invalidArgsError : String :=
  "\x7b\"error\":\"Invalid JSON arguments for function call.\"\x7d"

/-- Models `JSON.stringify({ error: `Error running function ...` })`. -/
def runningError (name msg : String) : String :=
  "\x7b\"error\":\"Error running function " ++ name ++ ": " ++ msg ++ "\"\x7d"

/-- Models `JSON.stringify` applied to a string result (escaping elided). -/
def jsStringifyStr (s : String) : String :=
  "\"" ++ s ++ "\""

/-- Models `handleFunctionCall`: `Except.error` is the `throw` for an unknown
function name; a JSON-parse failure of the arguments (`parseArgs` is the
host `JSON.parse`, returning `none` on failure) and a rejecting handler
both *resolve* to a structured error string. -/
def handleFunctionCall (registry : List FunctionHandler)
    (parseArgs : String → Option String)
    (name args : String) : Except String String :=
  match registry.find? (fun f => f.name = name) with
  | none => Except.error ("No handler found for function: " ++ name)
  | some f =>
      match parseArgs args with
      | none => Except.ok invalidArgsError
      | some parsed =>
          match f.handler parsed with
          | Except.ok result => Except.ok result
          | Except.error msg => Except.ok (runningError name msg)

/-- Models `Result: ${output.substring(0, 200)}${output.length > 200 ? '...' : ''}`. -/
def resultSummary (output : String) : String :=
  "Result: " ++ (output.take 200) ++ (if output.length > 200 then "..." else "")

/-- The `function_call` branch of `response.output_item.done` in
`handleModelMessage` (lines 455–523): the pre-dispatch tracking event,
then the `handleFunctionCall(...).then(...).catch(...)` continuation.  On
resolution the output is wrapped into a `function_call_output`
`conversation.item.create` followed by `response.create`, both gated on
`currentSession.modelConn` being present (truthy) and — inside
`jsonSend` — open; on rejection (unknown function) the error is only
logged and tracked, nothing is sent to the model. -/
def dispatchFunctionCall (registry : List FunctionHandler)
    (parseArgs : String → Option String)
    (name args : String) (callId : Option String)
    (userId : String) (st : ManagerState) : ManagerState × List Effect :=
  let (s, st) := getUserSession userId st
  let preTrack :=
    if jsStrFalsy s.callSid then []
    else [Effect.convEvent (s.callSid.getD "") "function_call" "system"
            ("Function: " ++ name)]
  match handleFunctionCall registry parseArgs name args with
  | Except.ok output =>
      let resTrack :=
        if jsStrFalsy s.callSid then []
        else [Effect.convEvent (s.callSid.getD "") "function_call" "system"
                (resultSummary output)]
      let sends :=
        if s.modelConn = none then []
        else
          jsonSend s.modelConn
            (Effect.sendModel
              (ModelEvent.functionOutputCreate callId (jsStringifyStr output))) ++
          jsonSend s.modelConn (Effect.sendModel ModelEvent.responseCreate)
      (st, preTrack ++ resTrack ++ sends)
  | Except.error msg =>
      let errTrack :=
        if jsStrFalsy s.callSid then []
        else [Effect.convEvent (s.callSid.getD "") "system_event" "system"
                ("Function error: " ++ msg)]
      (st, preTrack ++ errTrack)

/-- The externally triggered events of the bridge, for reasoning about
reachable registry states. -/
inductive SysEvent where
  | outboundRegister (userId callSid : String)
  | outboundRegisterWithPhone (userId callSid phone : String)
  | frontendConnect (token : String)
  | frontendSocketClose (userId : String)
  | twilioMsg (userIdIn : Option String) (apiKey : String) (m : Option TwilioMsg)
  | twilioSocketClose (userId : String)
  | truncationFires (userId : String)
deriving Repr

/-- One step of the bridge: dispatch one event to its handler (state
projection). -/
def step (verify : String → Option String) (e : SysEvent) (st : ManagerState) :
    ManagerState :=
  match e with
  | SysEvent.outboundRegister u cs => associateOutboundCall u cs st
  | SysEvent.outboundRegisterWithPhone u cs p =>
      (associateOutboundCallWithPhoneNumber u cs p st).1
  | SysEvent.frontendConnect tok => (handleFrontendConnection verify tok st).1
  | SysEvent.frontendSocketClose u => (frontendSocketCloseHandler u st).1
  | SysEvent.twilioMsg uid key m => (handleTwilioMessage uid key m st).1
  | SysEvent.twilioSocketClose u => (twilioSocketCloseHandler u st).1
  | SysEvent.truncationFires u => (handleTruncation u st).1

/-- Run a sequence of events from a start state. -/
def runEvents (verify : String → Option String) (evs : List SysEvent)
    (st : ManagerState) : ManagerState :=
  match evs with
  | [] => st
  | e :: rest => runEvents verify rest (step verify e st)

/-- A session holds at least one link handle. -/
def hasLiveLink (s : UserSession) : Bool :=
  s.twilioConn.isSome || s.modelConn.isSome || s.frontendConn.isSome

/-- Some pending call-identifier registration maps to this user. -/
def hasPendingRegistration (st : ManagerState) (userId : String) : Bool :=
  st.callSidToUserId.any (fun p => p.2 = userId)

/-- The registry invariant asserted by the spec: every registered session
has a live link or an outstanding pending registration. -/
def registryInvariant (st : ManagerState) : Bool :=
  st.userSessions.all (fun p => hasLiveLink p.2 || hasPendingRegistration st p.1)

/-- A user id is present in the session registry. -/
def sessionExists (st : ManagerState) (userId : String) : Bool :=
  (mapGet st.userSessions userId).isSome

/-- Reading the two maps is unchanged by `setSession` on `callSidToUserId`. -/
theorem associateOutboundCall_callMap (u cs : String) (st : ManagerState) :
    (associateOutboundCall u cs st).callSidToUserId =
      mapSet st.callSidToUserId cs u := by
  unfold associateOutboundCall getUserSession setSession
  cases h : mapGet st.userSessions u <;> simp [h]

/-- C5: a telephony "start" signal on an anonymous connection whose call
identifier has no pending registration closes the transport and has no
other effect: the state (session registry and pending-call map) is
returned unchanged, and the only effect is closing that connection — in
particular no session is created or mutated and no call-history tracking
starts. -/
theorem claim5_unregistered_start_closes_connection
    (st : ManagerState) (key ss : String) (cs fromNum : Option String)
    (h : cs.bind (getUserIdByCallSid st) = none) :
    handleTwilioMessage none key (some (TwilioMsg.start cs ss fromNum)) st
      = (st, [Effect.closeConn ConnTag.anonymousCall]) := by
  simp [handleTwilioMessage, twilioIdentify, jsStrFalsy, h]

/-- Witness for C5 at a concrete input: empty registry, Call SID `CA9`. -/
theorem claim5_unregistered_start_closes_connection_witness :
    handleTwilioMessage none "key" (some (TwilioMsg.start (some "CA9") "S1" none))
        emptyState
      = (emptyState, [Effect.closeConn ConnTag.anonymousCall]) :=
  claim5_unregistered_start_closes_connection emptyState "key" "S1"
    (some "CA9") none (by decide)

/-- C8: registering a pending outbound call makes its call identifier
resolve to the registered user; resolution is a read (the resolver state
is not an output of `getUserIdByCallSid`, which only calls `Map.get`), so
resolving twice yields the same user both times; and re-registering the
same call identifier with a different user overwrites the mapping, so
later resolutions return the most recent registrant. -/
theorem claim8_resolver_lookup_and_overwrite (st : ManagerState) (u1 u2 cs : String) :
    getUserIdByCallSid (associateOutboundCall u1 cs st) cs = some u1 ∧
    getUserIdByCallSid (associateOutboundCall u1 cs st) cs = some u1 ∧
    getUserIdByCallSid
        (associateOutboundCall u2 cs (associateOutboundCall u1 cs st)) cs
      = some u2 := by
  unfold getUserIdByCallSid
  rw [associateOutboundCall_callMap, associateOutboundCall_callMap]
  exact ⟨mapGet_mapSet_self _ cs u1, mapGet_mapSet_self _ cs u1,
    mapGet_mapSet_self _ cs u2⟩

/-- C9: when no assistant item is recorded, the scheduled barge-in action
is a complete no-op — the state is returned unchanged (no session field
changes) and the effect list is empty (no instruction sent on any
link). -/
theorem claim9_truncation_noop_without_item
    (st : ManagerState) (u : String) (s : UserSession)
    (hs : mapGet st.userSessions u = some s)
    (hitem : s.lastAssistantItem = none) :
    handleTruncation u st = (st, []) := by
  simp [handleTruncation, getUserSession, hs, jsStrFalsy, hitem]

/-- Witness for C9 at a concrete input: a fresh session for `u1`. -/
theorem claim9_truncation_noop_without_item_witness :
    handleTruncation "u1"
        { userSessions := [("u1", freshSession "u1")], callSidToUserId := [] }
      = ({ userSessions := [("u1", freshSession "u1")], callSidToUserId := [] },
         []) :=
  claim9_truncation_noop_without_item _ "u1" (freshSession "u1")
    (by decide) rfl

/-- C10: a frontend connection whose token the verifier cannot resolve to
a user identifier is closed immediately; the state is returned unchanged
(no session created or modified) and no message handler is attached
(the `Bool` component is `false`). -/
theorem claim10_invalid_token_closes_frontend
    (verify : String → Option String) (token : String) (st : ManagerState)
    (h : verify token = none) :
    handleFrontendConnection verify token st
      = (st, [Effect.closeConn ConnTag.frontend], false) := by
  simp [handleFrontendConnection, h]

/-- Witness for C10 at a concrete input: a verifier rejecting every
token. -/
theorem claim10_invalid_token_closes_frontend_witness :
    handleFrontendConnection (fun _ => none) "tok" emptyState
      = (emptyState, [Effect.closeConn ConnTag.frontend], false) :=
  claim10_invalid_token_closes_frontend (fun _ => none) "tok" emptyState rfl

/-- The session written by `associateOutboundCall`. -/
theorem associateOutboundCall_session (u cs : String) (st : ManagerState) :
    mapGet (associateOutboundCall u cs st).userSessions u
      = some { (getUserSession u st).1 with
          callType := some CallType.outbound
          outboundCallStatus := some OutboundCallStatus.initiating
          callSid := some cs } := by
  unfold associateOutboundCall setSession
  rcases hgu : getUserSession u st with ⟨s0, st0⟩
  simp [hgu, mapGet_mapSet_self]

/-- Helper: `tryConnectModel` either leaves the session untouched or only sets
`modelConn := CONNECTING`. -/
theorem tryConnectModel_session (u : String) (st : ManagerState) (s : UserSession)
    (hs : mapGet st.userSessions u = some s) :
    mapGet (tryConnectModel u st).1.userSessions u = some s ∨
    mapGet (tryConnectModel u st).1.userSessions u
      = some { s with modelConn := some WsState.connecting } := by
  unfold tryConnectModel setSession
  simp only [getUserSession, hs]
  split
  · exact Or.inl hs
  · split
    · exact Or.inl hs
    · exact Or.inr (by simp [mapGet_mapSet_self])

/-- The `start` case of the switch, for a session whose `callType` is
already `outbound`: the stream SID is recorded and `callType` /
`outboundCallStatus` are untouched. -/
theorem twilioSwitch_start_outbound (u ss : String) (cs fromNum : Option String)
    (st : ManagerState) (s : UserSession)
    (hs : mapGet st.userSessions u = some s)
    (hct : s.callType = some CallType.outbound) :
    ∃ s', mapGet ((twilioSwitch u (TwilioMsg.start cs ss fromNum) st).1).userSessions u
        = some s' ∧
      s'.callType = some CallType.outbound ∧
      s'.outboundCallStatus = s.outboundCallStatus ∧
      s'.streamSid = some ss := by
  unfold twilioSwitch
  simp only [getUserSession, hs, hct]
  set sD : UserSession := { s with
    streamSid := some ss
    latestMediaTimestamp := some (0 : Int)
    lastAssistantItem := none
    responseStartTimestamp := none
    callType := some CallType.outbound } with hsD
  have hsd : mapGet (setSession st u sD).userSessions u = some sD := by
    simp [setSession, mapGet_mapSet_self]
  rcases tryConnectModel_session u (setSession st u sD) sD hsd with h | h
  · exact ⟨sD, h, rfl, rfl, rfl⟩
  · exact ⟨{ sD with modelConn := some WsState.connecting }, h, rfl, rfl, rfl⟩

/-- C4: after `associateOutboundCall u cs`, an anonymous telephony
`start` signal carrying Call SID `cs` and stream SID `ss` resolves to the
registered user `u`, and once fully processed the session of `u` has
`callType = outbound`, `outboundCallStatus = connected` and
`streamSid = ss`. -/
theorem claim4_outbound_start_connects
    (st : ManagerState) (u cs ss key : String) (fromNum : Option String)
    (hu : u ≠ "") :
    getUserIdByCallSid (associateOutboundCall u cs st) cs = some u ∧
    (∃ s, mapGet ((handleTwilioMessage none key
          (some (TwilioMsg.start (some cs) ss fromNum))
          (associateOutboundCall u cs st)).1).userSessions u = some s ∧
        s.callType = some CallType.outbound ∧
        s.outboundCallStatus = some OutboundCallStatus.connected ∧
        s.streamSid = some ss) := by
  have hres : getUserIdByCallSid (associateOutboundCall u cs st) cs = some u := by
    unfold getUserIdByCallSid
    rw [associateOutboundCall_callMap]
    exact mapGet_mapSet_self _ cs u
  refine ⟨hres, ?_⟩
  have hsa := associateOutboundCall_session u cs st
  set st1 := associateOutboundCall u cs st with hst1
  set sA : UserSession := { (getUserSession u st).1 with
    callType := some CallType.outbound
    outboundCallStatus := some OutboundCallStatus.initiating
    callSid := some cs } with hsA
  unfold handleTwilioMessage twilioIdentify
  simp only [jsStrFalsy, Option.bind, hres, hu, decide_True, decide_False,
    if_true, if_false, ite_false, ite_true]
  simp only [getUserSession, hsa]
  set sC : UserSession := { sA with
    twilioConn := some WsState.opened
    openAIApiKey := some key
    outboundCallStatus := some OutboundCallStatus.connected } with hsC
  have hsc : mapGet (setSession st1 u sC).userSessions u = some sC := by
    simp [setSession, mapGet_mapSet_self]
  obtain ⟨s', hs', h1, h2, h3⟩ :=
    twilioSwitch_start_outbound u ss (some cs) fromNum (setSession st1 u sC) sC
      hsc rfl
  exact ⟨s', by simpa using hs', h1, by simpa using h2, h3⟩

/-- Witness for C4 at a concrete input (the spec's scenario: user `u1`,
Call SID `CA123`, stream SID `S1`). -/
theorem claim4_outbound_start_connects_witness :
    getUserIdByCallSid (associateOutboundCall "u1" "CA123" emptyState) "CA123"
        = some "u1" ∧
    (∃ s, mapGet ((handleTwilioMessage none "key"
          (some (TwilioMsg.start (some "CA123") "S1" none))
          (associateOutboundCall "u1" "CA123" emptyState)).1).userSessions "u1"
          = some s ∧
        s.callType = some CallType.outbound ∧
        s.outboundCallStatus = some OutboundCallStatus.connected ∧
        s.streamSid = some "S1") :=
  claim4_outbound_start_connects emptyState "u1" "CA123" "S1" "key" none
    (by decide)

theorem jsNumOr_some_zero (v : Int) : jsNumOr (some v) 0 = v := by
  by_cases h : v = 0 <;> simp [jsNumOr, h]

/-- C1 (counterexample): the claim fails when `responseStartTimestamp` is
recorded with value `0` — a reachable situation, since the source records
`responseStartTimestamp = session.latestMediaTimestamp || 0`, which is
`0` when the first audio delta precedes any media frame.  The guard
`!session.responseStartTimestamp` treats the recorded `0` as absent, so
with `lastAssistantItem = "item1"`, `responseStartTimestamp = 0`,
`latestMediaTimestamp = 100` and an open model link, the action sends
nothing (no truncate instruction with `audio_end_ms = 100 - 0`) and
leaves both fields recorded, contradicting the claim at this input. -/
theorem claim1_counterexample :
    handleTruncation "u1"
        { userSessions := [("u1",
            { freshSession "u1" with
                lastAssistantItem := some "item1",
                responseStartTimestamp := some 0,
                latestMediaTimestamp := some 100,
                modelConn := some WsState.opened })],
            callSidToUserId := [] }
      = ({ userSessions := [("u1",
            { freshSession "u1" with
                lastAssistantItem := some "item1",
                responseStartTimestamp := some 0,
                latestMediaTimestamp := some 100,
                modelConn := some WsState.opened })],
            callSidToUserId := [] }, []) := by
  decide

/-- C1 (amended): when the barge-in action executes with
`lastAssistantItem` recorded as a *nonempty* identifier,
`responseStartTimestamp` recorded with a *nonzero* value `T0`,
`latestMediaTimestamp = T1`, and the model link open, it sends a
`conversation.item.truncate` for that item with `audio_end_ms = T1 - T0`
exactly, then an `input_audio_buffer.clear`, then the injected system
notice (followed only by the fire-and-forget interruption tracking
event), and afterwards both `lastAssistantItem` and
`responseStartTimestamp` are empty. -/
theorem claim1_truncation_offset_amended
    (st : ManagerState) (u itemId : String) (s : UserSession) (t0 t1 : Int)
    (hs : mapGet st.userSessions u = some s)
    (hitem : s.lastAssistantItem = some itemId) (hne : itemId ≠ "")
    (ht0 : s.responseStartTimestamp = some t0) (ht0ne : t0 ≠ 0)
    (ht1 : s.latestMediaTimestamp = some t1)
    (hopen : s.modelConn = some WsState.opened) :
    handleTruncation u st
      = (setSession st u
           { s with lastAssistantItem := none, responseStartTimestamp := none },
         [Effect.sendModel (ModelEvent.conversationItemTruncate itemId 0 (t1 - t0)),
          Effect.sendModel ModelEvent.inputAudioBufferClear,
          Effect.sendModel (ModelEvent.systemNoticeCreate interruptionNotice)]
          ++ (if jsStrFalsy s.callSid then []
              else [Effect.convEvent (s.callSid.getD "") "system_event" "system"
                      "Assistant was interrupted by user"])) := by
  unfold handleTruncation
  simp only [getUserSession, hs]
  have h1 : jsStrFalsy (some itemId) = false := by
    simp [jsStrFalsy, hne]
  have h2 : jsNumFalsy (some t0) = false := by
    simp [jsNumFalsy, ht0ne]
  simp [h1, h2, hitem, ht0, ht1, hopen, jsonSend, isOpen, jsNumOr_some_zero]

/-- Witness for C1's amended theorem at a concrete input:
`T0 = 50`, `T1 = 120`, item `item1`, no Call SID. -/
theorem claim1_truncation_offset_amended_witness :
    handleTruncation "u1"
        { userSessions := [("u1",
            { freshSession "u1" with
                lastAssistantItem := some "item1",
                responseStartTimestamp := some 50,
                latestMediaTimestamp := some 120,
                modelConn := some WsState.opened })],
            callSidToUserId := [] }
      = ({ userSessions := [("u1",
            { freshSession "u1" with
                lastAssistantItem := none,
                responseStartTimestamp := none,
                latestMediaTimestamp := some 120,
                modelConn := some WsState.opened })],
            callSidToUserId := [] },
         [Effect.sendModel (ModelEvent.conversationItemTruncate "item1" 0 70),
          Effect.sendModel ModelEvent.inputAudioBufferClear,
          Effect.sendModel (ModelEvent.systemNoticeCreate interruptionNotice)]) := by
  have h := claim1_truncation_offset_amended
    { userSessions := [("u1",
        { freshSession "u1" with
            lastAssistantItem := some "item1",
            responseStartTimestamp := some 50,
            latestMediaTimestamp := some 120,
            modelConn := some WsState.opened })],
      callSidToUserId := [] }
    "u1" "item1"
    { freshSession "u1" with
        lastAssistantItem := some "item1",
        responseStartTimestamp := some 50,
        latestMediaTimestamp := some 120,
        modelConn := some WsState.opened }
    50 120 (by decide) rfl (by decide) rfl (by decide) rfl rfl
  simpa [setSession, mapSet, jsStrFalsy, freshSession] using h

/-- The result string a *found* handler entry always resolves to:
the parse-failure error, the handler's own result, or the
handler-exception error. -/
def fnOutput (parseArgs : String → Option String) (name args : String)
    (f : FunctionHandler) : String :=
  match parseArgs args with
  | none => invalidArgsError
  | some parsed =>
      match f.handler parsed with
      | Except.ok result => result
      | Except.error msg => runningError name msg

/-- C2 (counterexample): a dispatch whose function name has no registered
handler (empty registry, name `foo`) makes `handleFunctionCall` throw;
the `.catch` branch only logs, so the model receives *zero*
function-output events and zero `response.create` events — not exactly
one of each as the claim requires (here with an open model link and no
Call SID, the entire effect list is empty). -/
theorem claim2_counterexample :
    dispatchFunctionCall [] (fun s => some s) "foo" "args" none "u1"
        { userSessions := [("u1",
            { freshSession "u1" with modelConn := some WsState.opened })],
            callSidToUserId := [] }
      = ({ userSessions := [("u1",
            { freshSession "u1" with modelConn := some WsState.opened })],
            callSidToUserId := [] }, []) := by
  decide

/-- C2 (amended): for a dispatch whose function name *is* registered and
whose session has an open model link, every outcome — argument-parse
failure, handler exception, or success — resolves to a result string
(never a fatal error), and the dispatch sends exactly one function-output
`conversation.item.create` followed by exactly one `response.create` as
its final two effects; parse failures resolve to the structured
invalid-arguments error.  An unknown function name, by contrast, is
non-fatal but sends nothing back to the model (see the
counterexample). -/
theorem claim2_dispatch_amended
    (registry : List FunctionHandler) (parseArgs : String → Option String)
    (name args : String) (callId : Option String) (u : String)
    (st : ManagerState) (s : UserSession) (f : FunctionHandler)
    (hs : mapGet st.userSessions u = some s)
    (hopen : s.modelConn = some WsState.opened)
    (hfind : registry.find? (fun g => g.name = name) = some f) :
    handleFunctionCall registry parseArgs name args
      = Except.ok (fnOutput parseArgs name args f) ∧
    (parseArgs args = none → fnOutput parseArgs name args f = invalidArgsError) ∧
    dispatchFunctionCall registry parseArgs name args callId u st
      = (st,
         (if jsStrFalsy s.callSid then []
          else [Effect.convEvent (s.callSid.getD "") "function_call" "system"
                  ("Function: " ++ name)]) ++
         (if jsStrFalsy s.callSid then []
          else [Effect.convEvent (s.callSid.getD "") "function_call" "system"
                  (resultSummary (fnOutput parseArgs name args f))]) ++
         [Effect.sendModel
            (ModelEvent.functionOutputCreate callId
              (jsStringifyStr (fnOutput parseArgs name args f))),
          Effect.sendModel ModelEvent.responseCreate]) := by
  have hok : handleFunctionCall registry parseArgs name args
      = Except.ok (fnOutput parseArgs name args f) := by
    unfold handleFunctionCall fnOutput
    rw [hfind]
    cases hp : parseArgs args with
    | none => rfl
    | some parsed => cases hh : f.handler parsed <;> simp [hh]
  refine ⟨hok, ?_, ?_⟩
  · intro hp
    unfold fnOutput
    rw [hp]
  · unfold dispatchFunctionCall
    simp only [getUserSession, hs, hok]
    simp [hopen, jsonSend, isOpen]

/-- Witness for C2's amended theorem at a concrete input: registry with
one function `foo` whose handler succeeds with `hi`. -/
theorem claim2_dispatch_amended_witness :
    handleFunctionCall [⟨"foo", fun _ => Except.ok "hi"⟩]
        (fun a => some a) "foo" "args"
      = Except.ok "hi" ∧
    dispatchFunctionCall [⟨"foo", fun _ => Except.ok "hi"⟩]
        (fun a => some a) "foo" "args" (some "c1") "u1"
        { userSessions := [("u1",
            { freshSession "u1" with modelConn := some WsState.opened })],
            callSidToUserId := [] }
      = ({ userSessions := [("u1",
            { freshSession "u1" with modelConn := some WsState.opened })],
            callSidToUserId := [] },
         [Effect.sendModel
            (ModelEvent.functionOutputCreate (some "c1") (jsStringifyStr "hi")),
          Effect.sendModel ModelEvent.responseCreate]) := by
  have h := claim2_dispatch_amended [⟨"foo", fun _ => Except.ok "hi"⟩]
    (fun a => some a) "foo" "args" (some "c1") "u1"
    { userSessions := [("u1",
        { freshSession "u1" with modelConn := some WsState.opened })],
      callSidToUserId := [] }
    { freshSession "u1" with modelConn := some WsState.opened }
    ⟨"foo", fun _ => Except.ok "hi"⟩
    (by decide) rfl rfl
  obtain ⟨h1, _, h3⟩ := h
  refine ⟨by simpa [fnOutput] using h1, ?_⟩
  simpa [fnOutput, jsStrFalsy, freshSession] using h3

/-- The session's `latestMediaTimestamp` as seen through the registry. -/
def latestOf (st : ManagerState) (u : String) : Option Int :=
  (mapGet st.userSessions u).bind (fun s => s.latestMediaTimestamp)

/-- A concrete handled run: outbound registration, identification via
`start`, then a media frame carrying timestamp 10. -/
def mediaTrace10 : ManagerState :=
  (handleTwilioMessage (some "u1") "key" (some (TwilioMsg.media 10 "p"))
    ((handleTwilioMessage none "key"
        (some (TwilioMsg.start (some "CA1") "S1" none))
        (associateOutboundCall "u1" "CA1" emptyState)).1)).1

/-- Run `mediaTrace10` followed by a media frame carrying timestamp 5. -/
def mediaTrace10then5 : ManagerState :=
  (handleTwilioMessage (some "u1") "key" (some (TwilioMsg.media 5 "q"))
    mediaTrace10).1

/-- C7 (counterexample): handling a telephony media frame assigns the
carried timestamp verbatim, so a frame with a smaller timestamp
*decreases* `latestMediaTimestamp`: in a real handled run it moves from
10 to 5, contradicting the claim that no message-handling step ever
decreases it. -/
theorem claim7_counterexample :
    latestOf mediaTrace10 "u1" = some 10 ∧
    latestOf mediaTrace10then5 "u1" = some 5 := by
  decide

/-- C7 (amended): handling a media frame sets `latestMediaTimestamp` to
exactly the frame's carried timestamp; consequently the field is
non-decreasing only under the telephony-clock assumption that successive
frames carry non-decreasing timestamps (here: when the previous value `v`
is at most the carried timestamp `ts`, the update from `some v` to
`some ts` does not decrease).  Handling a `start` signal furthermore
resets the field to 0. -/
theorem claim7_media_timestamp_amended
    (st : ManagerState) (u key payload : String) (s : UserSession)
    (ts v : Int) (hu : u ≠ "")
    (hs : mapGet st.userSessions u = some s)
    (_hv : s.latestMediaTimestamp = some v) (hmono : v ≤ ts) :
    latestOf (handleTwilioMessage (some u) key
        (some (TwilioMsg.media ts payload)) st).1 u = some ts ∧
    v ≤ ts := by
  refine ⟨?_, hmono⟩
  unfold handleTwilioMessage
  have hfalsy : jsStrFalsy (some u) = false := by simp [jsStrFalsy, hu]
  simp only [hfalsy, Bool.false_eq_true, if_false, ite_false]
  unfold twilioSwitch
  simp only [getUserSession, hs]
  unfold latestOf setSession
  simp [mapGet_mapSet_self]

/-- Witness for C7's amended theorem at a concrete input: previous value
3, incoming timestamp 7. -/
theorem claim7_media_timestamp_amended_witness :
    latestOf (handleTwilioMessage (some "u1") "key"
        (some (TwilioMsg.media 7 "p"))
        { userSessions := [("u1",
            { freshSession "u1" with latestMediaTimestamp := some 3 })],
          callSidToUserId := [] }).1 "u1" = some 7 ∧ (3 : Int) ≤ 7 :=
  claim7_media_timestamp_amended _ "u1" "key" "p"
    { freshSession "u1" with latestMediaTimestamp := some 3 }
    7 3 (by decide) (by decide) rfl (by decide)


theorem count_endTracking_cleanup (c : Option WsState) (tag : ConnTag) (cs : String) :
    (cleanupConnection c tag).count (Effect.endTracking cs) = 0 := by
  unfold cleanupConnection
  split <;> simp

/-- The socket-close handler clears the streaming fields of the stored
session (whatever the outbound conditional does) and keeps `callSid`. -/
theorem twilioSocketCloseHandler_fields (u : String) (st : ManagerState)
    (s : UserSession) (hs : mapGet st.userSessions u = some s) :
    ∃ s', mapGet (twilioSocketCloseHandler u st).1.userSessions u = some s' ∧
      s'.streamSid = none ∧ s'.lastAssistantItem = none ∧
      s'.responseStartTimestamp = none ∧ s'.latestMediaTimestamp = none ∧
      s'.twilioConn = none ∧ s'.modelConn = none ∧ s'.callSid = s.callSid := by
  unfold twilioSocketCloseHandler
  simp only [getUserSession, hs]
  split
  · exact
      ⟨{ s with
          twilioConn := none,
          modelConn := none,
          streamSid := none,
          lastAssistantItem := none,
          responseStartTimestamp := none,
          latestMediaTimestamp := none,
          outboundCallStatus := some OutboundCallStatus.disconnected },
        by simp [setSession, mapGet_mapSet_self],
        rfl, rfl, rfl, rfl, rfl, rfl, rfl⟩
  · exact
      ⟨{ s with
          twilioConn := none,
          modelConn := none,
          streamSid := none,
          lastAssistantItem := none,
          responseStartTimestamp := none,
          latestMediaTimestamp := none },
        by simp [setSession, mapGet_mapSet_self],
        rfl, rfl, rfl, rfl, rfl, rfl, rfl⟩

/-- The socket-close handler's effects: one `endCallTracking` (when a
Call SID is recorded) and the connection cleanups. -/
theorem twilioSocketCloseHandler_effs (u : String) (st : ManagerState)
    (s : UserSession) (hs : mapGet st.userSessions u = some s) :
    (twilioSocketCloseHandler u st).2
      = endTrackingEffect s.callSid ++
        cleanupConnection s.modelConn ConnTag.model ++
        cleanupConnection s.twilioConn ConnTag.twilio := by
  unfold twilioSocketCloseHandler
  simp only [getUserSession, hs]

/-- C3 (counterexample): in the concrete run register-outbound(`u1`,
`CA1`) → telephony `start{CA1, S1}` → telephony `close`, the terminated
stream emits the end-of-call notification *twice* — once from the
`close`-signal case and once from the cascaded socket-close handler —
not exactly once as the claim requires. -/
theorem claim3_counterexample :
    ((processCloseSignal "u1"
        ((handleTwilioMessage none "key"
            (some (TwilioMsg.start (some "CA1") "S1" none))
            (associateOutboundCall "u1" "CA1" emptyState)).1)).2).count
        (Effect.endTracking "CA1") = 2 := by
  decide

/-- C3 (amended): for an identified session (open telephony link,
recorded Call SID `cs`), processing the telephony `close` signal —
including the socket-close handler that the signal's own `ws.close()`
cascade triggers — clears `streamSid`, `lastAssistantItem`,
`responseStartTimestamp` and `latestMediaTimestamp` (and both the
telephony and model links), but emits the end-of-call notification
exactly *twice* for the terminated stream, not exactly once. -/
theorem claim3_close_amended (st : ManagerState) (u cs : String)
    (s : UserSession) (hu : u ≠ "")
    (hs : mapGet st.userSessions u = some s)
    (hconn : s.twilioConn = some WsState.opened)
    (hcs : s.callSid = some cs) (hcsne : cs ≠ "") :
    (∃ s', mapGet (processCloseSignal u st).1.userSessions u = some s' ∧
       s'.streamSid = none ∧ s'.lastAssistantItem = none ∧
       s'.responseStartTimestamp = none ∧ s'.latestMediaTimestamp = none ∧
       s'.twilioConn = none ∧ s'.modelConn = none) ∧
    ((processCloseSignal u st).2).count (Effect.endTracking cs) = 2 := by
  have hpre : (getUserSession u st).1 = s := by simp [getUserSession, hs]
  have hmsg : handleTwilioMessage (some u) "" (some TwilioMsg.close) st
      = twilioSwitch u TwilioMsg.close st := by
    unfold handleTwilioMessage
    simp [jsStrFalsy, hu]
  set s1 : UserSession := { s with
    twilioConn := none,
    modelConn := none,
    outboundCallStatus := some OutboundCallStatus.disconnected } with hs1
  have hclose : twilioSwitch u TwilioMsg.close st
      = (setSession st u s1,
         endTrackingEffect s.callSid ++
           cleanupConnection s.twilioConn ConnTag.twilio ++
           cleanupConnection s.modelConn ConnTag.model) := by
    unfold twilioSwitch
    simp only [getUserSession, hs]
  have hst1 : mapGet (setSession st u s1).userSessions u = some s1 := by
    simp [setSession, mapGet_mapSet_self]
  have hrun : processCloseSignal u st
      = ((twilioSocketCloseHandler u (setSession st u s1)).1,
         (endTrackingEffect s.callSid ++
            cleanupConnection s.twilioConn ConnTag.twilio ++
            cleanupConnection s.modelConn ConnTag.model) ++
           (twilioSocketCloseHandler u (setSession st u s1)).2) := by
    unfold processCloseSignal
    rw [hpre, hmsg, hclose]
    simp [hconn]
  constructor
  · obtain ⟨s', h1, h2, h3, h4, h5, h6, h7, _⟩ :=
      twilioSocketCloseHandler_fields u (setSession st u s1) s1 hst1
    exact ⟨s', by rw [hrun]; exact h1, h2, h3, h4, h5, h6, h7⟩
  · rw [hrun]
    simp only [twilioSocketCloseHandler_effs u (setSession st u s1) s1 hst1]
    have hend : endTrackingEffect s.callSid = [Effect.endTracking cs] := by
      unfold endTrackingEffect
      simp [hcs, jsStrFalsy, hcsne]
    have hend1 : endTrackingEffect s1.callSid = [Effect.endTracking cs] := hend
    simp [hend, hend1, List.count_append, count_endTracking_cleanup]

/-- Witness for C3's amended theorem at a concrete input. -/
theorem claim3_close_amended_witness :
    (∃ s', mapGet (processCloseSignal "u1"
        { userSessions := [("u1",
            { freshSession "u1" with
                twilioConn := some WsState.opened,
                callSid := some "CA1" })],
          callSidToUserId := [] }).1.userSessions "u1" = some s' ∧
       s'.streamSid = none ∧ s'.lastAssistantItem = none ∧
       s'.responseStartTimestamp = none ∧ s'.latestMediaTimestamp = none ∧
       s'.twilioConn = none ∧ s'.modelConn = none) ∧
    ((processCloseSignal "u1"
        { userSessions := [("u1",
            { freshSession "u1" with
                twilioConn := some WsState.opened,
                callSid := some "CA1" })],
          callSidToUserId := [] }).2).count (Effect.endTracking "CA1") = 2 :=
  claim3_close_amended _ "u1" "CA1"
    { freshSession "u1" with
        twilioConn := some WsState.opened,
        callSid := some "CA1" }
    (by decide) (by decide) rfl rfl (by decide)


theorem sessionExists_getUserSession (u2 u : String) (st : ManagerState)
    (h : (mapGet st.userSessions u).isSome) :
    (mapGet (getUserSession u2 st).2.userSessions u).isSome := by
  unfold getUserSession
  cases hms : mapGet st.userSessions u2 with
  | none => simp only [hms]; exact mapGet_mapSet_isSome _ _ _ _ h
  | some s => simp only [hms]; exact h

theorem sessionExists_setSession (u2 u : String) (st : ManagerState)
    (s : UserSession) (h : (mapGet st.userSessions u).isSome) :
    (mapGet (setSession st u2 s).userSessions u).isSome :=
  mapGet_mapSet_isSome _ _ _ _ h

theorem sessionExists_tryConnectModel (u2 u : String) (st : ManagerState)
    (h : (mapGet st.userSessions u).isSome) :
    (mapGet (tryConnectModel u2 st).1.userSessions u).isSome := by
  unfold tryConnectModel
  rcases hgu : getUserSession u2 st with ⟨s0, st0⟩
  have h0 : (mapGet st0.userSessions u).isSome := by
    have h1 := sessionExists_getUserSession u2 u st h
    rwa [hgu] at h1
  simp only [hgu]
  split
  · exact h0
  · split
    · exact h0
    · exact sessionExists_setSession u2 u st0 _ h0

theorem sessionExists_twilioSwitch (u2 u : String) (msg : TwilioMsg)
    (st : ManagerState) (h : (mapGet st.userSessions u).isSome) :
    (mapGet (twilioSwitch u2 msg st).1.userSessions u).isSome := by
  unfold twilioSwitch
  rcases hgu : getUserSession u2 st with ⟨s0, st0⟩
  have h0 : (mapGet st0.userSessions u).isSome := by
    have h1 := sessionExists_getUserSession u2 u st h
    rwa [hgu] at h1
  simp only [hgu]
  cases msg with
  | start callSid streamSid fromNum =>
      exact sessionExists_tryConnectModel u2 u _
        (sessionExists_setSession u2 u st0 _ h0)
  | media timestamp payload => exact sessionExists_setSession u2 u st0 _ h0
  | close => exact sessionExists_setSession u2 u st0 _ h0
  | stop => exact h0
  | unknownEvent ev => exact h0

theorem sessionExists_twilioIdentify (key : String) (cs : Option String)
    (ss : String) (fr : Option String) (st : ManagerState) (u : String)
    (h : (mapGet st.userSessions u).isSome) :
    (mapGet (twilioIdentify key cs ss fr st).1.userSessions u).isSome := by
  unfold twilioIdentify
  cases hl : cs.bind (getUserIdByCallSid st) with
  | none => simp only [hl]; exact h
  | some fu =>
      simp only [hl]
      by_cases hfu : fu = ""
      · rw [if_pos hfu]; exact h
      · rw [if_neg hfu]
        exact sessionExists_twilioSwitch fu u _ _
          (sessionExists_setSession fu u _ _
            (sessionExists_getUserSession fu u st h))

theorem sessionExists_handleTwilioMessage (uidIn : Option String) (key : String)
    (raw : Option TwilioMsg) (st : ManagerState) (u : String)
    (h : (mapGet st.userSessions u).isSome) :
    (mapGet (handleTwilioMessage uidIn key raw st).1.userSessions u).isSome := by
  unfold handleTwilioMessage
  cases raw with
  | none => exact h
  | some msg =>
      cases uidIn with
      | none =>
          cases msg with
          | start cs ss fr => exact sessionExists_twilioIdentify key cs ss fr st u h
          | media ts p => exact h
          | close => exact h
          | stop => exact h
          | unknownEvent ev => exact h
      | some uidv =>
          by_cases huv : uidv = ""
          · subst huv
            cases msg with
            | start cs ss fr => exact sessionExists_twilioIdentify key cs ss fr st u h
            | media ts p => exact h
            | close => exact h
            | stop => exact h
            | unknownEvent ev => exact h
          · have hcond : ¬ (jsStrFalsy (some uidv) = true) := by
              simp [jsStrFalsy, huv]
            cases msg with
            | start cs ss fr =>
                show (mapGet ((if jsStrFalsy (some uidv) = true then
                      twilioIdentify key cs ss fr st
                    else twilioSwitch uidv (TwilioMsg.start cs ss fr) st)
                    ).1.userSessions u).isSome = true
                rw [if_neg hcond]
                exact sessionExists_twilioSwitch uidv u _ st h
            | media ts p =>
                show (mapGet (((if jsStrFalsy (some uidv) = true then
                      (st, ([] : List Effect))
                    else twilioSwitch uidv (TwilioMsg.media ts p) st) :
                    ManagerState × List Effect)).1.userSessions u).isSome = true
                rw [if_neg hcond]
                exact sessionExists_twilioSwitch uidv u _ st h
            | close =>
                show (mapGet (((if jsStrFalsy (some uidv) = true then
                      (st, ([] : List Effect))
                    else twilioSwitch uidv TwilioMsg.close st) :
                    ManagerState × List Effect)).1.userSessions u).isSome = true
                rw [if_neg hcond]
                exact sessionExists_twilioSwitch uidv u _ st h
            | stop =>
                show (mapGet (((if jsStrFalsy (some uidv) = true then
                      (st, ([] : List Effect))
                    else twilioSwitch uidv TwilioMsg.stop st) :
                    ManagerState × List Effect)).1.userSessions u).isSome = true
                rw [if_neg hcond]
                exact sessionExists_twilioSwitch uidv u _ st h
            | unknownEvent ev =>
                show (mapGet (((if jsStrFalsy (some uidv) = true then
                      (st, ([] : List Effect))
                    else twilioSwitch uidv (TwilioMsg.unknownEvent ev) st) :
                    ManagerState × List Effect)).1.userSessions u).isSome = true
                rw [if_neg hcond]
                exact sessionExists_twilioSwitch uidv u _ st h

theorem sessionExists_handleFrontendConnection (verify : String → Option String)
    (tok : String) (st : ManagerState) (u : String)
    (h : (mapGet st.userSessions u).isSome) :
    (mapGet (handleFrontendConnection verify tok st).1.userSessions u).isSome := by
  unfold handleFrontendConnection
  cases hv : verify tok with
  | none => exact h
  | some uid =>
      simp only [hv]
      split
      · exact h
      · exact sessionExists_setSession uid u _ _
          (sessionExists_getUserSession uid u st h)

theorem sessionExists_frontendSocketCloseHandler (u2 u : String)
    (st : ManagerState) (h : (mapGet st.userSessions u).isSome) :
    (mapGet (frontendSocketCloseHandler u2 st).1.userSessions u).isSome := by
  unfold frontendSocketCloseHandler
  cases hm : mapGet st.userSessions u2 with
  | none => simp only [hm]; exact h
  | some s => simp only [hm]; exact sessionExists_setSession u2 u st _ h

theorem sessionExists_twilioSocketCloseHandler (u2 u : String)
    (st : ManagerState) (h : (mapGet st.userSessions u).isSome) :
    (mapGet (twilioSocketCloseHandler u2 st).1.userSessions u).isSome := by
  unfold twilioSocketCloseHandler
  exact sessionExists_setSession u2 u _ _
    (sessionExists_getUserSession u2 u st h)

theorem sessionExists_handleTruncation (u2 u : String) (st : ManagerState)
    (h : (mapGet st.userSessions u).isSome) :
    (mapGet (handleTruncation u2 st).1.userSessions u).isSome := by
  unfold handleTruncation
  rcases hgu : getUserSession u2 st with ⟨s0, st0⟩
  have h0 : (mapGet st0.userSessions u).isSome := by
    have h1 := sessionExists_getUserSession u2 u st h
    rwa [hgu] at h1
  simp only [hgu]
  split
  · exact h0
  · split
    · exact h0
    · exact sessionExists_setSession u2 u st0 _ h0

theorem sessionExists_associateOutboundCall (u2 cs u : String)
    (st : ManagerState) (h : (mapGet st.userSessions u).isSome) :
    (mapGet (associateOutboundCall u2 cs st).userSessions u).isSome := by
  unfold associateOutboundCall
  exact sessionExists_setSession u2 u _ _
    (sessionExists_getUserSession u2 u st h)

/-- The verifier used in C6's counterexample run: `tok1` belongs to user
`u1`, everything else is invalid. -/
def c6verify : String → Option String :=
  fun t => if t = "tok1" then some "u1" else none

/-- C6's counterexample run: a frontend (observer) connection for `u1`
binds and then its socket closes. -/
def c6state : ManagerState :=
  runEvents c6verify
    [SysEvent.frontendConnect "tok1", SysEvent.frontendSocketClose "u1"]
    emptyState

/-- C6 (counterexample): after the concrete handled run
frontend-connect(`tok1` → `u1`) then frontend-socket-close, the session
for `u1` is still in the registry although it has no live link (all
three handles are absent) and no pending call-identifier registration
maps to it — the claimed registry invariant is false in this reachable
state. -/
theorem claim6_counterexample :
    sessionExists c6state "u1" = true ∧
    (mapGet c6state.userSessions "u1").map hasLiveLink = some false ∧
    hasPendingRegistration c6state "u1" = false ∧
    registryInvariant c6state = false := by
  decide

/-- C6 (amended): sessions, once created, are never removed by any
handled event — no operation tears a session down when its last link
closes or its pending registration is consumed (the source only ever
deletes sessions in `deleteUserSession`, which no handler calls).  In
particular a session may persist with no live link and no pending
registration, which is exactly how the claimed invariant fails. -/
theorem claim6_sessions_never_removed (verify : String → Option String)
    (e : SysEvent) (st : ManagerState) (u : String)
    (h : sessionExists st u = true) :
    sessionExists (step verify e st) u = true := by
  have h0 : (mapGet st.userSessions u).isSome := by
    simpa [sessionExists] using h
  have hres : (mapGet (step verify e st).userSessions u).isSome := by
    cases e with
    | outboundRegister a b => exact sessionExists_associateOutboundCall a b u st h0
    | outboundRegisterWithPhone a b c =>
        exact sessionExists_associateOutboundCall a b u st h0
    | frontendConnect tok =>
        exact sessionExists_handleFrontendConnection verify tok st u h0
    | frontendSocketClose a =>
        exact sessionExists_frontendSocketCloseHandler a u st h0
    | twilioMsg uidIn key m =>
        exact sessionExists_handleTwilioMessage uidIn key m st u h0
    | twilioSocketClose a =>
        exact sessionExists_twilioSocketCloseHandler a u st h0
    | truncationFires a => exact sessionExists_handleTruncation a u st h0
  simpa [sessionExists] using hres

/-- Witness for C6's amended theorem at a concrete input: the session of
`u1` survives its frontend socket closing. -/
theorem claim6_sessions_never_removed_witness :
    sessionExists
        (step c6verify (SysEvent.frontendSocketClose "u1")
          { userSessions := [("u1", freshSession "u1")], callSidToUserId := [] })
        "u1" = true :=
  claim6_sessions_never_removed c6verify (SysEvent.frontendSocketClose "u1")
    { userSessions := [("u1", freshSession "u1")], callSidToUserId := [] }
    "u1" (by decide)


end SessionBridge
